import Mathlib

/-!
Verification of the meeting-organizer normalization core.

This file gives a shallow embedding of the repository's data-ingestion code
and proves (or refutes) the frozen specification claims about it.

Embedded code:
* the webhook response normalizer of `GET /api/admin/meetings` (server with
  n8n webhook backend): shape-sniffing over an arbitrary JSON payload;
* `GoogleSheetsService.fetchMeetingRequests`: spreadsheet row decoding with
  header aliasing, defaults and the validity filter;
* `GoogleSheetsService.generateStatistics`: counting by status, priority and
  meeting type;
* `updateDashboardStats` and `confirmAction` from the admin dashboard script,
  together with the `POST /api/admin/meeting/action` server handler.

JavaScript values are modelled by the inductive `JVal`; JS truthiness,
property access and the `||` default operator are modelled explicitly.
Machine-level concerns (floats, `NaN` dates) are modelled by `Option`:
a `none` result of a parse stands for JS `NaN`/`undefined`.
-/

namespace MeetingOrganizer

/-- A parsed JSON / JavaScript value (the payloads handled by the server
are the results of `JSON.parse`, so functions, `undefined` members and
exotic objects do not occur; numbers are modelled as integers, which covers
every payload the claims mention). -/
inductive JVal where
  | null
  | bool (b : Bool)
  | num (n : Int)
  | str (s : String)
  | arr (elems : List JVal)
  | obj (fields : List (String × JVal))

/-- JS truthiness: `null`, `false`, `0` and `""` are falsy; every array and
every object (even empty ones) is truthy. -/
def truthy : JVal → Bool
  | .null => false
  | .bool b => b
  | .num n => n != 0
  | .str s => s ≠ ""
  | .arr _ => true
  | .obj _ => true

/-- `typeof v === 'object'` in JS: true for `null`, arrays and objects. -/
def typeofObject : JVal → Bool
  | .null => true
  | .arr _ => true
  | .obj _ => true
  | _ => false

/-- Property access on an object's field list: `fields.k`.  A `none` result
models JS `undefined`. -/
def getField : List (String × JVal) → String → Option JVal
  | [], _ => none
  | (k, v) :: rest, key => if k = key then some v else getField rest key

/-- Truthiness of a property access `v.k` (JS: `undefined` is falsy, and a
property access on a non-object primitive yields `undefined`). -/
def propTruthy (v : JVal) (key : String) : Bool :=
  match v with
  | .obj fields =>
    match getField fields key with
    | some x => truthy x
    | none => false
  | _ => false

/-- `x || d` for JS values: `x` when truthy, else the default `d`. -/
def jsOrVal (x : Option JVal) (d : JVal) : JVal :=
  match x with
  | some v => if truthy v then v else d
  | none => d

/-! ## The webhook response normalizer (`GET /api/admin/meetings`)

Embeds the body of the handler in the n8n-webhook variant of the server:
the cascade that locates the meeting array inside an arbitrary payload. -/

/-- The test `actualData.k && Array.isArray(actualData.k)` used by each
branch of the cascade: the value of property `k`, provided it is a (truthy)
array. -/
def arrProp (fields : List (String × JVal)) (key : String) : Option (List JVal) :=
  match getField fields key with
  | some v => if truthy v then match v with | .arr xs => some xs | _ => none else none
  | none => none

/-- The unwrap step
`if (actualData.json && typeof actualData.json === 'object') actualData = actualData.json`. -/
def jsUnwrap (fields : List (String × JVal)) : JVal :=
  match getField fields "json" with
  | some j => if truthy j && typeofObject j then j else .obj fields
  | none => .obj fields

/-- The fallback scan
`for (const [key, value] of Object.entries(actualData)) ...`: the first
array-valued property that is non-empty and whose first element is truthy
and has a truthy `requestId`, `userName` or `meetingPurpose`. -/
def autoDetect : List (String × JVal) → Option (List JVal)
  | [] => none
  | (_, v) :: rest =>
    match v with
    | .arr (first :: more) =>
      if truthy first &&
          (propTruthy first "requestId" || propTruthy first "userName" ||
            propTruthy first "meetingPurpose") then
        some (first :: more)
      else autoDetect rest
    | _ => autoDetect rest

/-- The strict comparison `actualData.message === 'Workflow was started'`. -/
def isWorkflowStarted (fields : List (String × JVal)) : Bool :=
  match getField fields "message" with
  | some (.str s) => s = "Workflow was started"
  | _ => false

/-- The data extracted by the handler before it builds the HTTP response:
the meetings list, plus `statistics` / `lastUpdated` / `message` (only the
`.meetings` branch fills the latter three). -/
structure Extracted where
  meetings : List JVal
  statistics : JVal
  lastUpdated : Option JVal
  message : JVal

/-- The initial values `meetings = []`, `statistics = {}`,
`lastUpdated = null`, `message = ''`. -/
def Extracted.empty : Extracted := ⟨[], .obj [], none, .str ""⟩

/-- The cascade applied to `actualData` after the `.json` unwrap:
array / `.meetings` / `.data` / `.items` / `.response` / `.result` /
`Workflow was started` / single-record wrap / auto-detection scan. -/
def innerExtract (v : JVal) : Extracted :=
  match v with
  | .arr xs => ⟨xs, .obj [], none, .str ""⟩
  | .obj fields =>
    match arrProp fields "meetings" with
    | some xs =>
      ⟨xs, jsOrVal (getField fields "statistics") (.obj []),
        getField fields "lastUpdated", jsOrVal (getField fields "message") (.str "")⟩
    | none =>
      match (arrProp fields "data" <|> arrProp fields "items" <|>
          arrProp fields "response" <|> arrProp fields "result") with
      | some xs => ⟨xs, .obj [], none, .str ""⟩
      | none =>
        if isWorkflowStarted fields then
          Extracted.empty
        else if propTruthy (.obj fields) "requestId" || propTruthy (.obj fields) "id" then
          ⟨[.obj fields], .obj [], none, .str ""⟩
        else
          match autoDetect fields with
          | some xs => ⟨xs, .obj [], none, .str ""⟩
          | none => Extracted.empty
  | _ => Extracted.empty

/-- The whole extraction: `if (response.data) { if (Array.isArray(...)) ...
else if (typeof ... === 'object') { unwrap; cascade } }`. -/
def extract (data : JVal) : Extracted :=
  if truthy data then
    match data with
    | .arr xs => ⟨xs, .obj [], none, .str ""⟩
    | .obj fields => innerExtract (jsUnwrap fields)
    | _ => Extracted.empty
  else Extracted.empty

/-- Outcome of the outbound `axios.get(webhookUrl, ...)` call: either a
parsed JSON payload, or a thrown error (network failure, timeout, non-2xx
status), carrying its message. -/
inductive FetchOutcome where
  | ok (payload : JVal)
  | failure (errMessage : String)

/-- The JSON body and HTTP status sent back by the handler; fields that a
branch does not set are `none`. -/
structure AdminListResponse where
  httpStatus : Nat
  success : Bool
  meetings : List JVal
  statistics : Option JVal
  lastUpdated : Option JVal
  message : Option JVal
  count : Option Nat
  errorField : Option String
  details : Option String

/-- The caller-facing boundary of the admin list fetch: the success path
(`res.json({success:true, meetings, statistics, lastUpdated, message, count})`,
with `message = message || 'Successfully loaded N meetings'`) and the catch
path (`res.json({success:false, meetings:[], error, details})`).  `res.json`
replies with HTTP status 200 in both paths. -/
def adminMeetingsHandler (outcome : FetchOutcome) : AdminListResponse :=
  match outcome with
  | .ok payload =>
    let r := extract payload
    let finalMessage :=
      if truthy r.message then r.message
      else .str ("Successfully loaded " ++ Nat.repr r.meetings.length ++ " meetings")
    ⟨200, true, r.meetings, some r.statistics, r.lastUpdated, some finalMessage,
      some r.meetings.length, none, none⟩
  | .failure e =>
    ⟨200, false, [], none, none, none, none, some "Failed to fetch meetings from n8n", some e⟩

/-! ## The spreadsheet row decoder (`GoogleSheetsService.fetchMeetingRequests`)

A decoded meeting is a JS object whose fields are spreadsheet cell strings;
it is modelled as an association list written in insertion order, with
assignment overwriting in place. -/

/-- A meeting object under construction: field name to cell value. -/
abbrev MeetingObj := List (String × String)

/-- ASCII lower-casing of one character (the headers and enum values the
claims concern are ASCII). -/
def lowerChar (c : Char) : Char :=
  if 'A' ≤ c && c ≤ 'Z' then Char.ofNat (c.toNat + 32) else c

/-- JS `s.toLowerCase()` on ASCII strings. -/
def jsToLower (s : String) : String := ⟨s.data.map lowerChar⟩

/-- Whitespace for the purposes of JS `String.prototype.trim()`. -/
def isSpaceChar (c : Char) : Bool := c = ' ' || c = '\t' || c = '\n' || c = '\r'

/-- JS `s.trim()`: strip whitespace from both ends. -/
def jsTrim (s : String) : String :=
  ⟨((s.data.dropWhile isSpaceChar).reverse.dropWhile isSpaceChar).reverse⟩

/-- JS assignment `meeting[k] = v`: overwrite in place, or append. -/
def setField : MeetingObj → String → String → MeetingObj
  | [], k, v => [(k, v)]
  | (k', v') :: rest, k, v =>
    if k' = k then (k, v) :: rest else (k', v') :: setField rest k v

/-- Read a field of a meeting object (`none` models `undefined`). -/
def lookupField : MeetingObj → String → Option String
  | [], _ => none
  | (k', v') :: rest, k => if k' = k then some v' else lookupField rest k

/-- `x || d` restricted to the string fields of a meeting object:
`undefined` and `""` are falsy. -/
def jsOr (x : Option String) (d : String) : String :=
  match x with
  | some v => if v = "" then d else v
  | none => d

/-- `header.toLowerCase().replace(/_/g, '')`: the storage key for a header
the switch does not recognize. -/
def normKey (header : String) : String :=
  ⟨(jsToLower header).data.filter (fun c => c ≠ '_')⟩

/-- One iteration of `headers.forEach((header, colIndex) => ...)`: the
column-name switch.  Each case lists the exact sheet-style and camelCase
spellings accepted by the source; `Status` applies `value || 'Pending'`,
`Priority`/`urgency` applies `value ? value.toLowerCase() : 'medium'`, and
the default case stores the value under the normalized header name. -/
def applyHeader (m : MeetingObj) (header value : String) : MeetingObj :=
  if header = "Request_ID" ∨ header = "requestId" then setField m "requestId" value
  else if header = "Timestamp" ∨ header = "timestamp" then setField m "timestamp" value
  else if header = "User_Name" ∨ header = "userName" then setField m "userName" value
  else if header = "User_Email" ∨ header = "userEmail" then setField m "userEmail" value
  else if header = "User_Phone" ∨ header = "userPhone" then setField m "userPhone" value
  else if header = "User_Company" ∨ header = "userCompany" then setField m "userCompany" value
  else if header = "userPosition" then setField m "userPosition" value
  else if header = "Meeting_Type" ∨ header = "meetingType" then setField m "meetingType" value
  else if header = "Meeting_Purpose" ∨ header = "meetingPurpose" then
    setField m "meetingPurpose" value
  else if header = "Preferred_Date" ∨ header = "preferredDate" then
    setField m "preferredDate" value
  else if header = "Preferred_Time" ∨ header = "preferredTime" then
    setField m "preferredTime" value
  else if header = "Duration_Minutes" ∨ header = "estimatedDuration" then
    setField m "estimatedDuration" value
  else if header = "Meeting_Details" ∨ header = "meetingDescription" then
    setField m "meetingDescription" value
  else if header = "Status" ∨ header = "status" then
    setField m "status" (if value = "" then "Pending" else value)
  else if header = "Admin_Response" ∨ header = "adminNotes" ∨ header = "adminEmail" then
    setField m "adminNotes" value
  else if header = "Confirmed_Date" ∨ header = "confirmedDate" then
    setField m "confirmedDate" value
  else if header = "Confirmed_Time" ∨ header = "confirmedTime" then
    setField m "confirmedTime" value
  else if header = "Priority" ∨ header = "urgency" then
    setField m "urgency" (if value = "" then "medium" else jsToLower value)
  else if header = "Location" ∨ header = "location" then setField m "location" value
  else if header = "Meeting_Link" ∨ header = "meetingLink" then setField m "meetingLink" value
  else if header = "Created_Date" ∨ header = "createdDate" then setField m "createdDate" value
  else if header = "Last_Updated" ∨ header = "lastUpdated" then setField m "lastUpdated" value
  else if header = "additionalNotes" then setField m "additionalNotes" value
  else if header = "attachments" then setField m "attachments" value
  else if header = "proposedStartTime" then setField m "proposedStartTime" value
  else if header = "proposedEndTime" then setField m "proposedEndTime" value
  else setField m (normKey header) value

/-- The exact header spellings recognized by the switch (every non-default
case label). -/
def knownHeaders : List String :=
  ["Request_ID", "requestId", "Timestamp", "timestamp", "User_Name", "userName",
   "User_Email", "userEmail", "User_Phone", "userPhone", "User_Company", "userCompany",
   "userPosition", "Meeting_Type", "meetingType", "Meeting_Purpose", "meetingPurpose",
   "Preferred_Date", "preferredDate", "Preferred_Time", "preferredTime",
   "Duration_Minutes", "estimatedDuration", "Meeting_Details", "meetingDescription",
   "Status", "status", "Admin_Response", "adminNotes", "adminEmail",
   "Confirmed_Date", "confirmedDate", "Confirmed_Time", "confirmedTime",
   "Priority", "urgency", "Location", "location", "Meeting_Link", "meetingLink",
   "Created_Date", "createdDate", "Last_Updated", "lastUpdated",
   "additionalNotes", "attachments", "proposedStartTime", "proposedEndTime"]

/-- Decode one data row against the header list:
`headers.forEach((header, colIndex) => { const value = row[colIndex] || ''; ... })`.
A missing cell reads as the empty string.  `decodeRowAux` threads the
accumulated object and the column index through the header list. -/
def decodeRowAux (row : List String) : MeetingObj → List String → Nat → MeetingObj
  | m, [], _ => m
  | m, h :: rest, i => decodeRowAux row (applyHeader m h (row.getD i "")) rest (i + 1)

/-- Decode one data row against the header list:
`headers.forEach((header, colIndex) => { const value = row[colIndex] || ''; ... })`.
A missing cell reads as the empty string. -/
def decodeRow (headers : List String) (row : List String) : MeetingObj :=
  decodeRowAux row [] headers 0

/-- Decimal digit character: `digitChar 3 = '3'`. -/
def digitChar (n : Nat) : Char := Char.ofNat (48 + n)

/-- Digits of `n` in base 10, most significant first; structural on the
fuel argument (any fuel above `n` is enough). -/
def decDigits : Nat → Nat → List Char
  | 0, _ => []
  | fuel + 1, n =>
    if n < 10 then [digitChar n] else decDigits fuel (n / 10) ++ [digitChar (n % 10)]

/-- Decimal rendering of a natural, modelling the JS template literal
interpolation of a number. -/
def natDecimal (n : Nat) : String := ⟨decDigits (n + 1) n⟩

/-- The synthesized row id `` `sheet_${index + 1}` `` (for the 0-based data
row index `i` the source uses `index + 1`). -/
def sheetId (n : Nat) : String := "sheet_" ++ natDecimal n

/-- Current wall-clock time is a parameter of the decoder model (the source
reads `new Date().toISOString()`). -/
def applyDefaults (m : MeetingObj) (index : Nat) (now : String) : MeetingObj :=
  let m1 := setField m "requestId" (jsOr (lookupField m "requestId") (sheetId (index + 1)))
  let m2 := setField m1 "status" (jsOr (lookupField m1 "status") "Pending")
  let m3 := setField m2 "timestamp"
    (jsOr (lookupField m2 "timestamp") (jsOr (lookupField m2 "createdDate") now))
  m3

/-- The validity filter: `meeting.f && meeting.f.trim() !== ''` for
`userName`, `userEmail` and `meetingPurpose`. -/
def fieldValid (m : MeetingObj) (key : String) : Bool :=
  match lookupField m key with
  | some v => v ≠ "" && jsTrim v ≠ ""
  | none => false

/-- `isValid = hasUserName && hasUserEmail && hasMeetingPurpose`. -/
def isValidMeeting (m : MeetingObj) : Bool :=
  fieldValid m "userName" && fieldValid m "userEmail" && fieldValid m "meetingPurpose"

/-- `dataRows.map((row, index) => {...})`: decode every row and apply the
defaults, threading the 0-based row index. -/
def decodeAll (headers : List String) (now : String) : Nat → List (List String) → List MeetingObj
  | _, [] => []
  | i, row :: rest =>
    applyDefaults (decodeRow headers row) i now :: decodeAll headers now (i + 1) rest

/-- The full row-decoding pipeline for the data rows: map then validity
filter (`meetings.filter(...)`). -/
def decodeRows (headers : List String) (rows : List (List String)) (now : String) :
    List MeetingObj :=
  (decodeAll headers now 0 rows).filter isValidMeeting

/-- Decoding a whole sheet: `rows[0]` is the header row, the rest are data
rows; an empty sheet yields `[]` (`if (!rows || rows.length === 0) return []`). -/
def decodeSheet (rows : List (List String)) (now : String) : List MeetingObj :=
  match rows with
  | [] => []
  | headers :: dataRows => decodeRows headers dataRows now

/-! ## The statistics aggregator (`GoogleSheetsService.generateStatistics`) -/

/-- The statistics object built by `generateStatistics` (the nested
`byPriority` and `byMeetingType` objects are flattened into fields). -/
structure SheetStats where
  total : Nat
  pending : Nat
  approved : Nat
  rejected : Nat
  rescheduled : Nat
  priorityHigh : Nat
  priorityMedium : Nat
  priorityLow : Nat
  typeOnline : Nat
  typeOffline : Nat
  typeHybrid : Nat
deriving DecidableEq, Repr

/-- The lowercased status key:
`meeting.status ? meeting.status.toLowerCase() : 'pending'`. -/
def statusKey (m : MeetingObj) : String :=
  match lookupField m "status" with
  | some v => if v = "" then "pending" else jsToLower v
  | none => "pending"

/-- The lowercased priority key:
`meeting.urgency ? meeting.urgency.toLowerCase() : 'medium'`. -/
def priorityKey (m : MeetingObj) : String :=
  match lookupField m "urgency" with
  | some v => if v = "" then "medium" else jsToLower v
  | none => "medium"

/-- The lowercased meeting-type key:
`meeting.meetingType ? meeting.meetingType.toLowerCase() : 'online'`. -/
def typeKey (m : MeetingObj) : String :=
  match lookupField m "meetingType" with
  | some v => if v = "" then "online" else jsToLower v
  | none => "online"

/-- `if (stats.hasOwnProperty(status)) stats[status]++`: the own numeric
properties of the `stats` object are `total`, `pending`, `approved`,
`rejected` and `rescheduled` (its other own properties, `byPriority` and
`byMeetingType`, contain capital letters, which a lowercased status cannot
match). -/
def bumpStatus (s : SheetStats) (key : String) : SheetStats :=
  if key = "total" then ⟨s.total + 1, s.pending, s.approved, s.rejected, s.rescheduled,
    s.priorityHigh, s.priorityMedium, s.priorityLow, s.typeOnline, s.typeOffline, s.typeHybrid⟩
  else if key = "pending" then ⟨s.total, s.pending + 1, s.approved, s.rejected, s.rescheduled,
    s.priorityHigh, s.priorityMedium, s.priorityLow, s.typeOnline, s.typeOffline, s.typeHybrid⟩
  else if key = "approved" then ⟨s.total, s.pending, s.approved + 1, s.rejected, s.rescheduled,
    s.priorityHigh, s.priorityMedium, s.priorityLow, s.typeOnline, s.typeOffline, s.typeHybrid⟩
  else if key = "rejected" then ⟨s.total, s.pending, s.approved, s.rejected + 1, s.rescheduled,
    s.priorityHigh, s.priorityMedium, s.priorityLow, s.typeOnline, s.typeOffline, s.typeHybrid⟩
  else if key = "rescheduled" then ⟨s.total, s.pending, s.approved, s.rejected,
    s.rescheduled + 1, s.priorityHigh, s.priorityMedium, s.priorityLow,
    s.typeOnline, s.typeOffline, s.typeHybrid⟩
  else s

/-- `if (stats.byPriority.hasOwnProperty(priority)) stats.byPriority[priority]++`. -/
def bumpPriority (s : SheetStats) (key : String) : SheetStats :=
  if key = "high" then ⟨s.total, s.pending, s.approved, s.rejected, s.rescheduled,
    s.priorityHigh + 1, s.priorityMedium, s.priorityLow, s.typeOnline, s.typeOffline, s.typeHybrid⟩
  else if key = "medium" then ⟨s.total, s.pending, s.approved, s.rejected, s.rescheduled,
    s.priorityHigh, s.priorityMedium + 1, s.priorityLow, s.typeOnline, s.typeOffline, s.typeHybrid⟩
  else if key = "low" then ⟨s.total, s.pending, s.approved, s.rejected, s.rescheduled,
    s.priorityHigh, s.priorityMedium, s.priorityLow + 1, s.typeOnline, s.typeOffline, s.typeHybrid⟩
  else s

/-- `if (stats.byMeetingType.hasOwnProperty(meetingType)) stats.byMeetingType[meetingType]++`. -/
def bumpType (s : SheetStats) (key : String) : SheetStats :=
  if key = "online" then ⟨s.total, s.pending, s.approved, s.rejected, s.rescheduled,
    s.priorityHigh, s.priorityMedium, s.priorityLow, s.typeOnline + 1, s.typeOffline, s.typeHybrid⟩
  else if key = "offline" then ⟨s.total, s.pending, s.approved, s.rejected, s.rescheduled,
    s.priorityHigh, s.priorityMedium, s.priorityLow, s.typeOnline, s.typeOffline + 1, s.typeHybrid⟩
  else if key = "hybrid" then ⟨s.total, s.pending, s.approved, s.rejected, s.rescheduled,
    s.priorityHigh, s.priorityMedium, s.priorityLow, s.typeOnline, s.typeOffline, s.typeHybrid + 1⟩
  else s

/-- The body of `meetings.forEach(meeting => ...)`. -/
def statsStep (s : SheetStats) (m : MeetingObj) : SheetStats :=
  bumpType (bumpPriority (bumpStatus s (statusKey m)) (priorityKey m)) (typeKey m)

/-- `generateStatistics`: start from `total = meetings.length` and all
buckets zero, then fold the per-meeting counting step. -/
def generateStatistics (meetings : List MeetingObj) : SheetStats :=
  meetings.foldl statsStep ⟨meetings.length, 0, 0, 0, 0, 0, 0, 0, 0, 0, 0⟩

/-! ## Dashboard counters (`updateDashboardStats` in `admin-dashboard.js`) -/

/-- A meeting as the dashboard sees it, restricted to the fields
`updateDashboardStats` reads: `status`, and `timestamp` as an epoch
millisecond instant (`none` models a missing or unparseable timestamp, for
which `new Date(...) >= oneWeekAgo` is false). -/
structure DashMeeting where
  status : String
  timestamp : Option Int

/-- The externally supplied statistics object (`dashboardStatistics`),
restricted to the fields the dashboard reads; `none` fields model missing
properties, which `|| 0` turns into zero. -/
structure ExternalStats where
  totalCount : Option Nat
  pendingCount : Option Nat
  approvedCount : Option Nat

/-- The four displayed counters. -/
structure DashCounts where
  total : Nat
  pending : Nat
  approved : Nat
  thisWeek : Nat
deriving DecidableEq, Repr

/-- Milliseconds in seven days (`oneWeekAgo.setDate(oneWeekAgo.getDate() - 7)`). -/
def weekMs : Int := 7 * 24 * 60 * 60 * 1000

/-- The trailing-7-day count, always computed from the current meetings:
`currentMeetings.filter(m => m && m.timestamp && new Date(m.timestamp) >= oneWeekAgo).length`. -/
def weeklyCount (meetings : List DashMeeting) (now : Int) : Nat :=
  (meetings.filter (fun m =>
    match m.timestamp with
    | some t => now - weekMs ≤ t
    | none => false)).length

/-- `updateDashboardStats`: when `dashboardStatistics` is a present object
the three headline counters come from it (`totalCount || 0` and so on) and
only the weekly counter is computed from the meeting list; otherwise all
four are computed locally. -/
def updateDashboardStats (dashboardStatistics : Option ExternalStats)
    (currentMeetings : List DashMeeting) (now : Int) : DashCounts :=
  match dashboardStatistics with
  | some s =>
    ⟨s.totalCount.getD 0, s.pendingCount.getD 0, s.approvedCount.getD 0,
      weeklyCount currentMeetings now⟩
  | none =>
    ⟨currentMeetings.length,
      (currentMeetings.filter (fun m => m.status = "pending")).length,
      (currentMeetings.filter (fun m => m.status = "approved")).length,
      weeklyCount currentMeetings now⟩

/-! ## Submitting an admin action

`confirmAction` (client) validates and posts to
`POST /api/admin/meeting/action` (server), which forwards to the outbound
action webhook.  Date-times are compared as calendar tuples, which is
order-isomorphic to the JS `Date` comparison for the valid instants the
form produces. -/

/-- A calendar instant `YYYY-MM-DD HH:MM`. -/
structure DateTime where
  year : Nat
  month : Nat
  day : Nat
  hour : Nat
  minute : Nat
deriving DecidableEq, Repr

/-- Linear key giving the chronological order of valid calendar instants
(fields within their calendar ranges). -/
def DateTime.key (t : DateTime) : Nat :=
  (((t.year * 13 + t.month) * 32 + t.day) * 24 + t.hour) * 60 + t.minute

/-- Split a character list on a separator. -/
def splitChar (sep : Char) : List Char → List (List Char)
  | [] => [[]]
  | c :: rest =>
    let parts := splitChar sep rest
    if c = sep then [] :: parts
    else
      match parts with
      | p :: ps => (c :: p) :: ps
      | [] => [[c]]

/-- Parse a non-empty all-digit character list. -/
def digitsToNat : List Char → Option Nat
  | [] => none
  | l =>
    if l.all (fun c => '0' ≤ c && c ≤ '9') then
      some (l.foldl (fun a c => 10 * a + (c.toNat - 48)) 0)
    else none

/-- Parse `` new Date(`${newDate}T${newTime}`) ``: an ISO `YYYY-MM-DD` date
plus `HH:MM` time.  `none` models an invalid date (JS `NaN`), for which the
comparison `newDate <= now` is false and the check passes. -/
def parseDateTime (date time : String) : Option DateTime :=
  match splitChar '-' date.data with
  | [y, mo, d] =>
    match splitChar ':' time.data with
    | [h, mi] =>
      match digitsToNat y, digitsToNat mo, digitsToNat d, digitsToNat h, digitsToNat mi with
      | some y', some mo', some d', some h', some mi' =>
        if 1 ≤ mo' && mo' ≤ 12 && 1 ≤ d' && d' ≤ 31 && h' ≤ 23 && mi' ≤ 59 then
          some ⟨y', mo', d', h', mi'⟩
        else none
      | _, _, _, _, _ => none
    | _ => none
  | _ => none

/-- Client-side validation in `confirmAction` (all form values are trimmed
on collection): a reschedule needs both `newDate` and `newTime`, and the
combined instant must be strictly in the future (`if (newDate <= now)`
reject); other actions pass through.  `some alert` is the early return via
`showAlert(alert, 'error')`; `none` means the client proceeds to post. -/
def confirmClientAlert (action newDate newTime : String) (now : DateTime) : Option String :=
  if action = "reschedule" then
    if (jsTrim newDate) = "" || (jsTrim newTime) = "" then
      some "Please provide new date and time for rescheduling."
    else
      match parseDateTime (jsTrim newDate) (jsTrim newTime) with
      | some t =>
        if t.key ≤ now.key then some "Please select a future date and time." else none
      | none => none
  else none

/-- Result of submitting an action through the gateway. -/
inductive SubmitResult where
  | clientRejected (alert : String)
  | badRequest (httpStatus : Nat) (errorMsg : String)
  | webhookSent (requestId action : String)
deriving DecidableEq, Repr

/-- The server handler `POST /api/admin/meeting/action` up to the outbound
webhook call: requires `requestId` and `action` to be truthy and `action`
to be one of the three valid kinds, then posts the action data to the
action webhook. -/
def serverMeetingAction (requestId action : String) : SubmitResult :=
  if requestId = "" || action = "" then .badRequest 400 "Request ID and action are required"
  else if action = "approve" ∨ action = "reject" ∨ action = "reschedule" then
    .webhookSent requestId action
  else .badRequest 400 "Invalid action. Must be: approve, reject, or reschedule"

/-- The full `submitAction` path: client validation first; only when it
passes is the server handler (and through it the outbound webhook) reached. -/
def submitAction (requestId action newDate newTime : String) (now : DateTime) : SubmitResult :=
  match confirmClientAlert action newDate newTime now with
  | some alert => .clientRejected alert
  | none => serverMeetingAction requestId action

/-- Whether an outbound webhook call happened. -/
def SubmitResult.webhookCalled : SubmitResult → Bool
  | .webhookSent _ _ => true
  | _ => false

/-! ## Claim C1 -/

/-- C1: a payload that is a bare array, or an object with an array-typed
`meetings`, `data`, `items`, `response` or `result` property, normalizes to
exactly the contained records in their original order, the shapes being
tried in the priority order bare array, nested `json` unwrap, `meetings`,
`data`, `items`, `response`, `result` (each property case applies when no
earlier shape matched). -/
theorem normalizer_returns_contained_records (a : List JVal)
    (fields : List (String × JVal)) :
    (extract (.arr a)).meetings = a
    ∧ extract (.obj fields) = innerExtract (jsUnwrap fields)
    ∧ (jsUnwrap fields = .obj fields →
        (arrProp fields "meetings" = some a → (extract (.obj fields)).meetings = a)
        ∧ (arrProp fields "meetings" = none →
            arrProp fields "data" = some a → (extract (.obj fields)).meetings = a)
        ∧ (arrProp fields "meetings" = none → arrProp fields "data" = none →
            arrProp fields "items" = some a → (extract (.obj fields)).meetings = a)
        ∧ (arrProp fields "meetings" = none → arrProp fields "data" = none →
            arrProp fields "items" = none → arrProp fields "response" = some a →
            (extract (.obj fields)).meetings = a)
        ∧ (arrProp fields "meetings" = none → arrProp fields "data" = none →
            arrProp fields "items" = none → arrProp fields "response" = none →
            arrProp fields "result" = some a → (extract (.obj fields)).meetings = a)) := by
  refine ⟨by simp [extract, truthy], by simp [extract, truthy], fun hu => ⟨?_, ?_, ?_, ?_, ?_⟩⟩
  · intro h1
    simp [extract, truthy, hu, innerExtract, h1]
  · intro h1 h2
    simp [extract, truthy, hu, innerExtract, h1, h2]
  · intro h1 h2 h3
    simp [extract, truthy, hu, innerExtract, h1, h2, h3]
  · intro h1 h2 h3 h4
    simp [extract, truthy, hu, innerExtract, h1, h2, h3, h4]
  · intro h1 h2 h3 h4 h5
    simp [extract, truthy, hu, innerExtract, h1, h2, h3, h4, h5]

/-- Witness for C1 at concrete payloads: a bare two-element array and an
object whose only array property is `data`. -/
theorem normalizer_returns_contained_records_witness :
    (extract (.arr [.num 1, .num 2])).meetings = [.num 1, .num 2]
    ∧ (extract (.obj [("data", .arr [.num 7])])).meetings = [.num 7] :=
  ⟨(normalizer_returns_contained_records [.num 1, .num 2] []).1,
    ((normalizer_returns_contained_records [.num 7]
      [("data", .arr [.num 7])]).2.2 rfl).2.1 rfl rfl⟩

/-! ## Claim C2 -/

/-- C2: the admin list fetch replies with HTTP status 200 for every
outcome; on total failure of the external call it returns an empty meeting
list with `success:false` and an error field; and on a payload matching no
known structure — including the `{message: "Workflow was started"}` reply —
it returns an empty meeting list with a diagnostic message. -/
theorem admin_fetch_soft_failure (e : String) (fields : List (String × JVal)) :
    (∀ outcome, (adminMeetingsHandler outcome).httpStatus = 200)
    ∧ ((adminMeetingsHandler (.failure e)).meetings = []
        ∧ (adminMeetingsHandler (.failure e)).success = false
        ∧ (adminMeetingsHandler (.failure e)).errorField =
            some "Failed to fetch meetings from n8n")
    ∧ (jsUnwrap fields = .obj fields →
        arrProp fields "meetings" = none → arrProp fields "data" = none →
        arrProp fields "items" = none → arrProp fields "response" = none →
        arrProp fields "result" = none →
        propTruthy (.obj fields) "requestId" = false →
        propTruthy (.obj fields) "id" = false →
        (isWorkflowStarted fields = true ∨ autoDetect fields = none) →
        (adminMeetingsHandler (.ok (.obj fields))).meetings = []
        ∧ (adminMeetingsHandler (.ok (.obj fields))).success = true
        ∧ (adminMeetingsHandler (.ok (.obj fields))).message =
            some (.str "Successfully loaded 0 meetings")) := by
  refine ⟨fun outcome => ?_, ⟨rfl, rfl, rfl⟩, ?_⟩
  · cases outcome <;> rfl
  · intro hu h1 h2 h3 h4 h5 hrid hid hrest
    have hext : (extract (.obj fields)).meetings = [] ∧
        (extract (.obj fields)).message = .str "" := by
      cases hrest with
      | inl hw =>
        simp [extract, truthy, hu, innerExtract, h1, h2, h3, h4, h5, hw, Extracted.empty]
      | inr hauto =>
        cases hstarted : isWorkflowStarted fields with
        | true =>
          simp [extract, truthy, hu, innerExtract, h1, h2, h3, h4, h5, hstarted,
            Extracted.empty]
        | false =>
          simp [extract, truthy, hu, innerExtract, h1, h2, h3, h4, h5, hstarted,
            hrid, hid, hauto, Extracted.empty]
    refine ⟨?_, rfl, ?_⟩
    · simp [adminMeetingsHandler, hext.1]
    · simp only [adminMeetingsHandler, hext.1, hext.2, truthy]
      rfl

/-- Witness for C2: the failure outcome at a concrete error message, and a
concrete object payload with no recognizable structure. -/
theorem admin_fetch_soft_failure_witness :
    (adminMeetingsHandler (.failure "boom")).meetings = []
    ∧ (adminMeetingsHandler (.ok (.obj [("foo", .str "bar")]))).meetings = []
    ∧ (adminMeetingsHandler (.ok (.obj [("foo", .str "bar")]))).message =
        some (.str "Successfully loaded 0 meetings") :=
  ⟨(admin_fetch_soft_failure "boom" [("foo", .str "bar")]).2.1.1,
    ((admin_fetch_soft_failure "boom" [("foo", .str "bar")]).2.2 rfl rfl rfl rfl rfl rfl
      rfl rfl (.inr rfl)).1,
    ((admin_fetch_soft_failure "boom" [("foo", .str "bar")]).2.2 rfl rfl rfl rfl rfl rfl
      rfl rfl (.inr rfl)).2.2⟩

/-! ## Claim C10 -/

/-- C10: normalizing `{json: {meetings: xs}}` descends one level into the
nested `json` object and yields the inner records, and normalizing the
already-unwrapped `{meetings: xs}` yields the same records. -/
theorem normalizer_json_unwrap (xs : List JVal) :
    (extract (.obj [("json", .obj [("meetings", .arr xs)])])).meetings = xs
    ∧ (extract (.obj [("meetings", .arr xs)])).meetings = xs := by
  constructor <;>
    simp [extract, truthy, jsUnwrap, getField, typeofObject, innerExtract, arrProp]

/-! ## Claim C3 -/

/-- An empty date string never parses (`splitChar` yields a single empty
part, not three). -/
theorem parseDateTime_empty_date (time : String) : parseDateTime "" time = none := rfl

/-- An empty time string never parses. -/
theorem parseDateTime_empty_time (date : String) : parseDateTime date "" = none := by
  unfold parseDateTime
  cases h : splitChar '-' date.data with
  | nil => rfl
  | cons y rest =>
    cases rest with
    | nil => rfl
    | cons mo rest2 =>
      cases rest2 with
      | nil => rfl
      | cons d rest3 =>
        cases rest3 with
        | nil => rfl
        | cons _ _ => rfl

/-- C3: the action submission path accepts only `approve`, `reject` and
`reschedule` (anything else gets HTTP 400 before the outbound webhook
call); a reschedule without both `newDate` and `newTime` is rejected by the
client, and a reschedule whose combined instant is not strictly in the
future is rejected by the client — in both cases before any outbound
webhook call occurs. -/
theorem submit_action_validation (requestId action newDate newTime : String)
    (now : DateTime) :
    ((submitAction requestId action newDate newTime now).webhookCalled = true →
      action = "approve" ∨ action = "reject" ∨ action = "reschedule")
    ∧ (action = "reschedule" → ((jsTrim newDate) = "" ∨ (jsTrim newTime) = "") →
        submitAction requestId action newDate newTime now =
          .clientRejected "Please provide new date and time for rescheduling.")
    ∧ (∀ t, action = "reschedule" → parseDateTime (jsTrim newDate) (jsTrim newTime) = some t →
        t.key ≤ now.key →
        submitAction requestId action newDate newTime now =
          .clientRejected "Please select a future date and time.") := by
  refine ⟨?_, ?_, ?_⟩
  · intro hcall
    unfold submitAction at hcall
    cases hca : confirmClientAlert action newDate newTime now with
    | some a => rw [hca] at hcall; simp [SubmitResult.webhookCalled] at hcall
    | none =>
      rw [hca] at hcall
      unfold serverMeetingAction at hcall
      by_cases h0 : requestId = "" || action = ""
      · simp [h0, SubmitResult.webhookCalled] at hcall
      · by_cases hv : action = "approve" ∨ action = "reject" ∨ action = "reschedule"
        · exact hv
        · simp [h0, hv, SubmitResult.webhookCalled] at hcall
  · intro ha hempty
    have hcond : ((jsTrim newDate) = "" || (jsTrim newTime) = "") = true := by
      rcases hempty with h | h <;> simp [h]
    simp [submitAction, confirmClientAlert, ha, hcond]
  · intro t ha hparse hle
    have hd : (jsTrim newDate) ≠ "" := by
      intro h
      rw [h, parseDateTime_empty_date] at hparse
      exact Option.noConfusion hparse
    have ht : (jsTrim newTime) ≠ "" := by
      intro h
      rw [h, parseDateTime_empty_time] at hparse
      exact Option.noConfusion hparse
    simp [submitAction, confirmClientAlert, ha, hd, ht, hparse, hle]

/-- Witness for C3: a webhook-reaching approval shows the accepted-action
fact; a reschedule to 2020 evaluated at a 2024 clock and a reschedule with
a blank time are both rejected client-side. -/
theorem submit_action_validation_witness :
    ("approve" = "approve" ∨ "approve" = "reject" ∨ "approve" = "reschedule")
    ∧ submitAction "r1" "reschedule" "2020-01-01" "10:00" ⟨2024, 1, 1, 0, 0⟩ =
        .clientRejected "Please select a future date and time."
    ∧ submitAction "r1" "reschedule" "2030-01-01" "" ⟨2024, 1, 1, 0, 0⟩ =
        .clientRejected "Please provide new date and time for rescheduling." :=
  ⟨(submit_action_validation "r1" "approve" "" "" ⟨2024, 1, 1, 0, 0⟩).1 rfl,
    (submit_action_validation "r1" "reschedule" "2020-01-01" "10:00"
      ⟨2024, 1, 1, 0, 0⟩).2.2 ⟨2020, 1, 1, 10, 0⟩ rfl (by decide) (by decide),
    (submit_action_validation "r1" "reschedule" "2030-01-01" ""
      ⟨2024, 1, 1, 0, 0⟩).2.1 rfl (.inr (by decide))⟩

/-! ## Claim C8 -/

/-- C8: when an external statistics object is present, the displayed total,
pending and approved counters come from its `totalCount`, `pendingCount`
and `approvedCount` fields — independent of the local meeting list — while
the trailing-7-day counter is always the locally recomputed
`weeklyCount`, whether or not external statistics are present. -/
theorem dashboard_prefers_external_stats (s : ExternalStats)
    (ms ms2 : List DashMeeting) (o : Option ExternalStats) (now : Int) :
    ((updateDashboardStats (some s) ms now).total = s.totalCount.getD 0
      ∧ (updateDashboardStats (some s) ms now).pending = s.pendingCount.getD 0
      ∧ (updateDashboardStats (some s) ms now).approved = s.approvedCount.getD 0)
    ∧ ((updateDashboardStats (some s) ms now).total =
        (updateDashboardStats (some s) ms2 now).total
      ∧ (updateDashboardStats (some s) ms now).pending =
        (updateDashboardStats (some s) ms2 now).pending
      ∧ (updateDashboardStats (some s) ms now).approved =
        (updateDashboardStats (some s) ms2 now).approved)
    ∧ (updateDashboardStats o ms now).thisWeek = weeklyCount ms now := by
  refine ⟨⟨rfl, rfl, rfl⟩, ⟨rfl, rfl, rfl⟩, ?_⟩
  cases o <;> rfl

/-! ## Row-decoder field lemmas -/

/-- Reading back after a JS assignment: the assigned key has the new value
and every other key is untouched. -/
theorem lookupField_setField (m : MeetingObj) (k k' v : String) :
    lookupField (setField m k v) k' = if k' = k then some v else lookupField m k' := by
  induction m with
  | nil =>
    by_cases h : k' = k
    · subst h
      simp [setField, lookupField]
    · have h2 : ¬(k = k') := fun hk => h hk.symm
      simp [setField, lookupField, h, h2]
  | cons hd tl ih =>
    obtain ⟨k2, v2⟩ := hd
    by_cases h2 : k2 = k
    · subst h2
      by_cases h : k' = k2
      · subst h
        simp [setField, lookupField]
      · have h2b : ¬(k2 = k') := fun hk => h hk.symm
        simp [setField, lookupField, h, h2b]
    · by_cases h3 : k2 = k'
      · subst h3
        have hk : ¬(k2 = k) := h2
        simp [setField, lookupField, hk, fun hq : k2 = k => h2 hq]
      · simp [setField, lookupField, h2, h3, ih]

/-- The three defaults applied after the header switch, read back from the
resulting object. -/
theorem applyDefaults_lookups (m : MeetingObj) (i : Nat) (now : String) :
    lookupField (applyDefaults m i now) "requestId" =
      some (jsOr (lookupField m "requestId") (sheetId (i + 1)))
    ∧ lookupField (applyDefaults m i now) "status" =
      some (jsOr (lookupField m "status") "Pending")
    ∧ lookupField (applyDefaults m i now) "timestamp" =
      some (jsOr (lookupField m "timestamp") (jsOr (lookupField m "createdDate") now)) := by
  refine ⟨?_, ?_, ?_⟩ <;>
    simp [applyDefaults, lookupField_setField]

/-! ## Claim C6 -/

/-- C6: during row decoding `status` defaults to `Pending` when blank,
`requestId` is synthesized as `sheet_<index+1>` when blank, and `timestamp`
falls back to `createdDate` when present, else to the current time; and the
concrete sheet with headers `Request_ID, User_Name, User_Email,
Meeting_Purpose, Status` and row `R1, Ann, ann@x.com, Demo, ""` decodes to
exactly one record whose status is `Pending`. -/
theorem row_decoder_defaults (m : MeetingObj) (i : Nat) (now : String) :
    lookupField (applyDefaults m i now) "status" =
      some (jsOr (lookupField m "status") "Pending")
    ∧ lookupField (applyDefaults m i now) "requestId" =
      some (jsOr (lookupField m "requestId") (sheetId (i + 1)))
    ∧ lookupField (applyDefaults m i now) "timestamp" =
      some (jsOr (lookupField m "timestamp") (jsOr (lookupField m "createdDate") now))
    ∧ (∀ clock,
        (decodeSheet [["Request_ID", "User_Name", "User_Email", "Meeting_Purpose", "Status"],
            ["R1", "Ann", "ann@x.com", "Demo", ""]] clock).map
          (fun r => lookupField r "status") = [some "Pending"]) :=
  ⟨(applyDefaults_lookups m i now).2.1, (applyDefaults_lookups m i now).1,
    (applyDefaults_lookups m i now).2.2, fun _ => rfl⟩

/-! ## Claim C5 -/

/-- C5 counterexample: the lower-case separator variant `request_id` of the
known synonym `Request_ID` is not mapped to the canonical `requestId` field
— it falls through to the default rule and is stored under `requestid`, so
the mapping is not case- and separator-insensitive; decoding such a sheet
leaves `requestId` to be synthesized instead of carrying the cell value. -/
theorem field_aliaser_case_sensitive_counterexample :
    applyHeader [] "request_id" "R9" = [("requestid", "R9")]
    ∧ applyHeader [] "Request_ID" "R9" = [("requestId", "R9")]
    ∧ ("requestid" : String) ≠ "requestId"
    ∧ (decodeSheet [["request_id", "User_Name", "User_Email", "Meeting_Purpose"],
          ["R9", "Ann", "a@x.com", "Demo"]] "T").map
        (fun r => lookupField r "requestId") = [some "sheet_1"] :=
  ⟨rfl, rfl, by decide, rfl⟩

/-- C5 as amended: each known synonym maps to its canonical field only
under its two exact listed spellings (sheet style and camelCase), and every
header outside the table — including any other casing or separator variant
— has its cell value stored under the header name lowercased with
underscores stripped, so the cell is still kept. -/
theorem field_aliaser_table (m : MeetingObj) (hdr v : String) :
    (applyHeader m "Request_ID" v = setField m "requestId" v
      ∧ applyHeader m "requestId" v = setField m "requestId" v)
    ∧ (applyHeader m "Timestamp" v = setField m "timestamp" v
      ∧ applyHeader m "timestamp" v = setField m "timestamp" v)
    ∧ (applyHeader m "User_Name" v = setField m "userName" v
      ∧ applyHeader m "userName" v = setField m "userName" v)
    ∧ (applyHeader m "User_Email" v = setField m "userEmail" v
      ∧ applyHeader m "userEmail" v = setField m "userEmail" v)
    ∧ (applyHeader m "User_Phone" v = setField m "userPhone" v
      ∧ applyHeader m "userPhone" v = setField m "userPhone" v)
    ∧ (applyHeader m "User_Company" v = setField m "userCompany" v
      ∧ applyHeader m "userCompany" v = setField m "userCompany" v)
    ∧ applyHeader m "userPosition" v = setField m "userPosition" v
    ∧ (applyHeader m "Meeting_Type" v = setField m "meetingType" v
      ∧ applyHeader m "meetingType" v = setField m "meetingType" v)
    ∧ (applyHeader m "Meeting_Purpose" v = setField m "meetingPurpose" v
      ∧ applyHeader m "meetingPurpose" v = setField m "meetingPurpose" v)
    ∧ (applyHeader m "Preferred_Date" v = setField m "preferredDate" v
      ∧ applyHeader m "preferredDate" v = setField m "preferredDate" v)
    ∧ (applyHeader m "Preferred_Time" v = setField m "preferredTime" v
      ∧ applyHeader m "preferredTime" v = setField m "preferredTime" v)
    ∧ (applyHeader m "Duration_Minutes" v = setField m "estimatedDuration" v
      ∧ applyHeader m "estimatedDuration" v = setField m "estimatedDuration" v)
    ∧ (applyHeader m "Meeting_Details" v = setField m "meetingDescription" v
      ∧ applyHeader m "meetingDescription" v = setField m "meetingDescription" v)
    ∧ (applyHeader m "Status" v = setField m "status" (if v = "" then "Pending" else v)
      ∧ applyHeader m "status" v = setField m "status" (if v = "" then "Pending" else v))
    ∧ (applyHeader m "Admin_Response" v = setField m "adminNotes" v
      ∧ applyHeader m "adminNotes" v = setField m "adminNotes" v
      ∧ applyHeader m "adminEmail" v = setField m "adminNotes" v)
    ∧ (applyHeader m "Confirmed_Date" v = setField m "confirmedDate" v
      ∧ applyHeader m "confirmedDate" v = setField m "confirmedDate" v)
    ∧ (applyHeader m "Confirmed_Time" v = setField m "confirmedTime" v
      ∧ applyHeader m "confirmedTime" v = setField m "confirmedTime" v)
    ∧ (applyHeader m "Priority" v =
        setField m "urgency" (if v = "" then "medium" else jsToLower v)
      ∧ applyHeader m "urgency" v =
        setField m "urgency" (if v = "" then "medium" else jsToLower v))
    ∧ (applyHeader m "Location" v = setField m "location" v
      ∧ applyHeader m "location" v = setField m "location" v)
    ∧ (applyHeader m "Meeting_Link" v = setField m "meetingLink" v
      ∧ applyHeader m "meetingLink" v = setField m "meetingLink" v)
    ∧ (applyHeader m "Created_Date" v = setField m "createdDate" v
      ∧ applyHeader m "createdDate" v = setField m "createdDate" v)
    ∧ (applyHeader m "Last_Updated" v = setField m "lastUpdated" v
      ∧ applyHeader m "lastUpdated" v = setField m "lastUpdated" v)
    ∧ applyHeader m "additionalNotes" v = setField m "additionalNotes" v
    ∧ applyHeader m "attachments" v = setField m "attachments" v
    ∧ applyHeader m "proposedStartTime" v = setField m "proposedStartTime" v
    ∧ applyHeader m "proposedEndTime" v = setField m "proposedEndTime" v
    ∧ (hdr ∉ knownHeaders → applyHeader m hdr v = setField m (normKey hdr) v) := by
  refine ⟨⟨rfl, rfl⟩, ⟨rfl, rfl⟩, ⟨rfl, rfl⟩, ⟨rfl, rfl⟩, ⟨rfl, rfl⟩, ⟨rfl, rfl⟩, rfl,
    ⟨rfl, rfl⟩, ⟨rfl, rfl⟩, ⟨rfl, rfl⟩, ⟨rfl, rfl⟩, ⟨rfl, rfl⟩, ⟨rfl, rfl⟩, ⟨rfl, rfl⟩,
    ⟨rfl, rfl, rfl⟩, ⟨rfl, rfl⟩, ⟨rfl, rfl⟩, ⟨rfl, rfl⟩, ⟨rfl, rfl⟩, ⟨rfl, rfl⟩,
    ⟨rfl, rfl⟩, ⟨rfl, rfl⟩, rfl, rfl, rfl, rfl, ?_⟩
  intro hh
  simp only [knownHeaders, List.mem_cons, List.mem_singleton, not_or] at hh
  obtain ⟨n01, n02, n03, n04, n05, n06, n07, n08, n09, n10, n11, n12, n13, n14, n15, n16,
    n17, n18, n19, n20, n21, n22, n23, n24, n25, n26, n27, n28, n29, n30, n31, n32, n33,
    n34, n35, n36, n37, n38, n39, n40, n41, n42, n43, n44, n45, n46, n47, n48⟩ := hh
  simp only [applyHeader, n01, n02, n03, n04, n05, n06, n07, n08, n09, n10, n11, n12,
    n13, n14, n15, n16, n17, n18, n19, n20, n21, n22, n23, n24, n25, n26, n27, n28, n29,
    n30, n31, n32, n33, n34, n35, n36, n37, n38, n39, n40, n41, n42, n43, n44, n45, n46,
    n47, n48, or_self, if_false, ite_false, or_false, false_or]

/-- Witness for C5 (amended): the unknown header `Custom_Field` stores its
value under `customfield`. -/
theorem field_aliaser_table_witness :
    applyHeader [] "Custom_Field" "z" = [("customfield", "z")] :=
  ((field_aliaser_table [] "Custom_Field" "z").2.2.2.2.2.2.2.2.2.2.2.2.2.2.2.2.2.2.2.2.2.2.2.2.2.2
    (by decide)).trans rfl

/-! ## Claim C4 -/

/-- A field that passes the validity test is non-empty after trimming. -/
theorem fieldValid_trim (m : MeetingObj) (k : String) (h : fieldValid m k = true) :
    jsTrim ((lookupField m k).getD "") ≠ "" := by
  unfold fieldValid at h
  cases hl : lookupField m k with
  | none => rw [hl] at h; exact absurd h (by simp)
  | some v =>
    rw [hl] at h
    simp only [Bool.and_eq_true, decide_eq_true_eq] at h
    simpa [hl] using h.2

/-- C4: every record surfaced by the row decoder has `userName`,
`userEmail` and `meetingPurpose` non-empty after trimming; the output is a
sublist of the decoded rows (original order preserved); a decoded row is
surfaced exactly when it passes the validity predicate; and a concrete row
with an empty `User_Name` is dropped entirely. -/
theorem row_decoder_validity (headers : List String) (rows : List (List String))
    (now : String) :
    (∀ m ∈ decodeRows headers rows now,
      jsTrim ((lookupField m "userName").getD "") ≠ ""
      ∧ jsTrim ((lookupField m "userEmail").getD "") ≠ ""
      ∧ jsTrim ((lookupField m "meetingPurpose").getD "") ≠ "")
    ∧ (decodeRows headers rows now).Sublist (decodeAll headers now 0 rows)
    ∧ (∀ m, m ∈ decodeRows headers rows now ↔
        m ∈ decodeAll headers now 0 rows ∧ isValidMeeting m = true)
    ∧ (∀ clock, decodeSheet [["User_Name", "User_Email", "Meeting_Purpose"],
        ["", "b@x.com", "Purpose"]] clock = []) := by
  refine ⟨?_, List.filter_sublist _, fun m => List.mem_filter, fun _ => rfl⟩
  intro m hm
  have hv : isValidMeeting m = true := List.of_mem_filter hm
  unfold isValidMeeting at hv
  simp only [Bool.and_eq_true] at hv
  exact ⟨fieldValid_trim m "userName" hv.1.1, fieldValid_trim m "userEmail" hv.1.2,
    fieldValid_trim m "meetingPurpose" hv.2⟩

/-- Witness for C4 at a concrete sheet: the surviving record of a valid row
has a non-blank trimmed `userName`. -/
theorem row_decoder_validity_witness :
    jsTrim ((lookupField [("userName", "Ann"), ("userEmail", "a@x.com"),
      ("meetingPurpose", "P"), ("requestId", "sheet_1"), ("status", "Pending"),
      ("timestamp", "T")] "userName").getD "") ≠ "" :=
  ((row_decoder_validity ["User_Name", "User_Email", "Meeting_Purpose"]
    [["Ann", "a@x.com", "P"]] "T").1 _ (by decide)).1

/-! ## Claim C7 -/

/-- Number of meetings whose enum key (status, priority or type, including
the source's defaulting and lower-casing) equals `k`. -/
def countKey (f : MeetingObj → String) (k : String) (ms : List MeetingObj) : Nat :=
  (ms.filter (fun m => f m = k)).length

/-- Component-wise description of the status bump. -/
theorem bumpStatus_components (s : SheetStats) (k : String) :
    bumpStatus s k =
      ⟨s.total + (if k = "total" then 1 else 0),
        s.pending + (if k = "pending" then 1 else 0),
        s.approved + (if k = "approved" then 1 else 0),
        s.rejected + (if k = "rejected" then 1 else 0),
        s.rescheduled + (if k = "rescheduled" then 1 else 0),
        s.priorityHigh, s.priorityMedium, s.priorityLow,
        s.typeOnline, s.typeOffline, s.typeHybrid⟩ := by
  unfold bumpStatus
  split_ifs <;> simp_all

/-- Component-wise description of the priority bump. -/
theorem bumpPriority_components (s : SheetStats) (k : String) :
    bumpPriority s k =
      ⟨s.total, s.pending, s.approved, s.rejected, s.rescheduled,
        s.priorityHigh + (if k = "high" then 1 else 0),
        s.priorityMedium + (if k = "medium" then 1 else 0),
        s.priorityLow + (if k = "low" then 1 else 0),
        s.typeOnline, s.typeOffline, s.typeHybrid⟩ := by
  unfold bumpPriority
  split_ifs <;> simp_all

/-- Component-wise description of the meeting-type bump. -/
theorem bumpType_components (s : SheetStats) (k : String) :
    bumpType s k =
      ⟨s.total, s.pending, s.approved, s.rejected, s.rescheduled,
        s.priorityHigh, s.priorityMedium, s.priorityLow,
        s.typeOnline + (if k = "online" then 1 else 0),
        s.typeOffline + (if k = "offline" then 1 else 0),
        s.typeHybrid + (if k = "hybrid" then 1 else 0)⟩ := by
  unfold bumpType
  split_ifs <;> simp_all

/-- Component-wise description of one `meetings.forEach` counting step. -/
theorem statsStep_components (s : SheetStats) (m : MeetingObj) :
    statsStep s m =
      ⟨s.total + (if statusKey m = "total" then 1 else 0),
        s.pending + (if statusKey m = "pending" then 1 else 0),
        s.approved + (if statusKey m = "approved" then 1 else 0),
        s.rejected + (if statusKey m = "rejected" then 1 else 0),
        s.rescheduled + (if statusKey m = "rescheduled" then 1 else 0),
        s.priorityHigh + (if priorityKey m = "high" then 1 else 0),
        s.priorityMedium + (if priorityKey m = "medium" then 1 else 0),
        s.priorityLow + (if priorityKey m = "low" then 1 else 0),
        s.typeOnline + (if typeKey m = "online" then 1 else 0),
        s.typeOffline + (if typeKey m = "offline" then 1 else 0),
        s.typeHybrid + (if typeKey m = "hybrid" then 1 else 0)⟩ := by
  unfold statsStep
  rw [bumpStatus_components, bumpPriority_components, bumpType_components]

/-- `generateStatistics` computed in closed form: the fold adds, to the
initial `total = length`, one per meeting and matching bucket key. -/
theorem statsFold_closed (ms : List MeetingObj) (s : SheetStats) :
    ms.foldl statsStep s =
      ⟨s.total + countKey statusKey "total" ms,
        s.pending + countKey statusKey "pending" ms,
        s.approved + countKey statusKey "approved" ms,
        s.rejected + countKey statusKey "rejected" ms,
        s.rescheduled + countKey statusKey "rescheduled" ms,
        s.priorityHigh + countKey priorityKey "high" ms,
        s.priorityMedium + countKey priorityKey "medium" ms,
        s.priorityLow + countKey priorityKey "low" ms,
        s.typeOnline + countKey typeKey "online" ms,
        s.typeOffline + countKey typeKey "offline" ms,
        s.typeHybrid + countKey typeKey "hybrid" ms⟩ := by
  induction ms generalizing s with
  | nil => cases s; simp [countKey]
  | cons m ms ih =>
    rw [List.foldl_cons, ih, statsStep_components]
    simp only [countKey, List.filter_cons, apply_ite List.length, List.length_cons,
      SheetStats.mk.injEq, decide_eq_true_eq]
    refine ⟨?_, ?_, ?_, ?_, ?_, ?_, ?_, ?_, ?_, ?_, ?_⟩ <;> split_ifs <;> omega

/-- C7 as amended: `generateStatistics` counts statuses, priorities and
types case-insensitively into exactly their own buckets (unrecognized
values land in no bucket), `total` equals the number of records plus the
number of records whose status lowercases to the aggregate key `total`
(hence equals the record count whenever no status lowercases to `total`),
keys are lower-cased before matching, and the concrete status list
`[pending, pending, approved]` yields `total=3, pending=2, approved=1,
rejected=0`. -/
theorem statistics_aggregator (ms : List MeetingObj) :
    (generateStatistics ms).total = ms.length + countKey statusKey "total" ms
    ∧ ((∀ m ∈ ms, statusKey m ≠ "total") → (generateStatistics ms).total = ms.length)
    ∧ (generateStatistics ms).pending = countKey statusKey "pending" ms
    ∧ (generateStatistics ms).approved = countKey statusKey "approved" ms
    ∧ (generateStatistics ms).rejected = countKey statusKey "rejected" ms
    ∧ (generateStatistics ms).rescheduled = countKey statusKey "rescheduled" ms
    ∧ (generateStatistics ms).priorityHigh = countKey priorityKey "high" ms
    ∧ (generateStatistics ms).priorityMedium = countKey priorityKey "medium" ms
    ∧ (generateStatistics ms).priorityLow = countKey priorityKey "low" ms
    ∧ (generateStatistics ms).typeOnline = countKey typeKey "online" ms
    ∧ (generateStatistics ms).typeOffline = countKey typeKey "offline" ms
    ∧ (generateStatistics ms).typeHybrid = countKey typeKey "hybrid" ms
    ∧ statusKey [("status", "PENDING")] = "pending"
    ∧ ((generateStatistics [[("status", "pending")], [("status", "pending")],
        [("status", "approved")]]).total = 3
      ∧ (generateStatistics [[("status", "pending")], [("status", "pending")],
          [("status", "approved")]]).pending = 2
      ∧ (generateStatistics [[("status", "pending")], [("status", "pending")],
          [("status", "approved")]]).approved = 1
      ∧ (generateStatistics [[("status", "pending")], [("status", "pending")],
          [("status", "approved")]]).rejected = 0) := by
  have hclosed := statsFold_closed ms ⟨ms.length, 0, 0, 0, 0, 0, 0, 0, 0, 0, 0⟩
  refine ⟨by simp [generateStatistics, hclosed], ?_,
    by simp [generateStatistics, hclosed], by simp [generateStatistics, hclosed],
    by simp [generateStatistics, hclosed], by simp [generateStatistics, hclosed],
    by simp [generateStatistics, hclosed], by simp [generateStatistics, hclosed],
    by simp [generateStatistics, hclosed], by simp [generateStatistics, hclosed],
    by simp [generateStatistics, hclosed], by simp [generateStatistics, hclosed],
    rfl, by decide, by decide, by decide, by decide⟩
  intro hnone
  have h0 : countKey statusKey "total" ms = 0 := by
    simp only [countKey, List.length_eq_zero]
    exact List.filter_eq_nil_iff.mpr (by simpa using hnone)
  simp [generateStatistics, hclosed, h0]

/-- C7 counterexample: a single record whose status is `Total` makes the
aggregate `total` equal 2 although the list has exactly one record, so an
unrecognized-as-status value is not always ignored. -/
theorem statistics_total_counterexample :
    (generateStatistics [[("status", "Total")]]).total = 2
    ∧ List.length [[("status", "Total")]] = 1
    ∧ (2 : Nat) ≠ 1 :=
  ⟨by decide, rfl, by decide⟩

/-- Witness for C7: the hypothesis of the amended total-count statement,
discharged on the concrete `[pending, pending, approved]` list. -/
theorem statistics_aggregator_witness :
    (generateStatistics [[("status", "pending")], [("status", "pending")],
      [("status", "approved")]]).total = 3 :=
  (statistics_aggregator [[("status", "pending")], [("status", "pending")],
    [("status", "approved")]]).2.1 (by decide)

/-! ## Claim C9 -/

/-- Decimal value of a digit list (most significant first). -/
def digitsVal (l : List Char) : Nat :=
  l.foldl (fun a c => 10 * a + (c.toNat - 48)) 0

/-- The code of a decimal digit character. -/
theorem digitChar_toNat (k : Nat) (h : k < 10) : (digitChar k).toNat = 48 + k := by
  interval_cases k <;> rfl

/-- Appending one digit multiplies the value by ten. -/
theorem digitsVal_append (l : List Char) (c : Char) :
    digitsVal (l ++ [c]) = 10 * digitsVal l + (c.toNat - 48) := by
  unfold digitsVal
  rw [List.foldl_append]
  rfl

/-- Rendering then re-reading a natural number is the identity, for any
sufficient fuel. -/
theorem digitsVal_decDigits : ∀ fuel n, n < fuel → digitsVal (decDigits fuel n) = n := by
  intro fuel
  induction fuel with
  | zero => exact fun n h => absurd h (Nat.not_lt_zero n)
  | succ fuel ih =>
    intro n h
    unfold decDigits
    by_cases h10 : n < 10
    · simp only [h10, if_true]
      show 10 * 0 + ((digitChar n).toNat - 48) = n
      rw [digitChar_toNat n h10]
      omega
    · simp only [h10, if_false]
      have hpos : 0 < n := by omega
      have hdiv : n / 10 < n := Nat.div_lt_self hpos (by omega)
      rw [digitsVal_append, ih (n / 10) (by omega),
        digitChar_toNat (n % 10) (Nat.mod_lt n (by omega))]
      omega

/-- Decimal rendering is injective. -/
theorem natDecimal_inj {a b : Nat} (h : natDecimal a = natDecimal b) : a = b := by
  have hdata : decDigits (a + 1) a = decDigits (b + 1) b := congrArg String.data h
  have := congrArg digitsVal hdata
  rwa [digitsVal_decDigits (a + 1) a (by omega),
    digitsVal_decDigits (b + 1) b (by omega)] at this

/-- Synthesized sheet ids are injective. -/
theorem sheetId_inj {a b : Nat} (h : sheetId a = sheetId b) : a = b := by
  have hdata : "sheet_".data ++ (natDecimal a).data =
      "sheet_".data ++ (natDecimal b).data := congrArg String.data h
  exact natDecimal_inj (congrArg String.mk (List.append_cancel_left hdata))

/-- Every synthesized sheet id starts with the six characters `sheet_`. -/
theorem sheetId_take_six (n : Nat) : (sheetId n).data.take 6 = "sheet_".data := rfl

/-- The `requestId` each data row ends up with: the source cell when
non-blank, else the synthesized `sheet_<index+1>`. -/
def effectiveId (headers row : List String) (i : Nat) : String :=
  jsOr (lookupField (decodeRow headers row) "requestId") (sheetId (i + 1))

/-- The requestIds of the decoded (unfiltered) rows, from row index `i`. -/
def idList (headers : List String) : Nat → List (List String) → List String
  | _, [] => []
  | i, row :: rest => effectiveId headers row i :: idList headers (i + 1) rest

/-- The source-provided requestId of a row, when present and non-blank. -/
def nonblankId (headers row : List String) : Option String :=
  match lookupField (decodeRow headers row) "requestId" with
  | some v => if v = "" then none else some v
  | none => none

/-- The non-blank source-provided requestId cells, in row order. -/
def sourceIds (headers : List String) (rows : List (List String)) : List String :=
  rows.filterMap (nonblankId headers)

/-- The effective id is the non-blank source id when there is one, else the
synthesized sheet id. -/
theorem effectiveId_eq (headers row : List String) (i : Nat) :
    effectiveId headers row i = (nonblankId headers row).getD (sheetId (i + 1)) := by
  unfold effectiveId jsOr nonblankId
  cases hl : lookupField (decodeRow headers row) "requestId" with
  | none => rfl
  | some v => by_cases hv : v = "" <;> simp [hv]

/-- The decoded rows carry exactly the effective ids, in order. -/
theorem decodeAll_requestIds (headers : List String) (now : String) :
    ∀ i rows, (decodeAll headers now i rows).map (fun m => lookupField m "requestId") =
      (idList headers i rows).map some := by
  intro i rows
  induction rows generalizing i with
  | nil => rfl
  | cons row rest ih =>
    simp only [decodeAll, List.map_cons, idList, ih, List.map, List.cons.injEq, and_true]
    rw [(applyDefaults_lookups (decodeRow headers row) i now).1]
    rfl

/-- Every effective id is either a non-blank source id or a synthesized id
with index above the starting offset. -/
theorem mem_idList (headers : List String) :
    ∀ rows i x, x ∈ idList headers i rows →
      x ∈ sourceIds headers rows ∨ ∃ k, x = sheetId k ∧ i + 1 ≤ k := by
  intro rows
  induction rows with
  | nil => intro i x hx; exact absurd hx (List.not_mem_nil x)
  | cons row rest ih =>
    intro i x hx
    rcases List.mem_cons.mp hx with hx | hx
    · rw [effectiveId_eq] at hx
      cases hn : nonblankId headers row with
      | none =>
        rw [hn] at hx
        exact .inr ⟨i + 1, hx, le_refl _⟩
      | some v =>
        rw [hn] at hx
        subst hx
        left
        simp [sourceIds, List.filterMap_cons, hn]
    · rcases ih (i + 1) x hx with hsrc | ⟨k, hk, hik⟩
      · left
        cases hn : nonblankId headers row with
        | none => simpa [sourceIds, List.filterMap_cons, hn] using hsrc
        | some v =>
          simp only [sourceIds, List.filterMap_cons, hn]
          exact List.mem_cons_of_mem v hsrc
      · exact .inr ⟨k, hk, by omega⟩

/-- Membership in the nonblank source ids is monotone under dropping the
first row. -/
theorem sourceIds_tail_subset (headers : List String) (row : List String)
    (rest : List (List String)) (x : String) (hx : x ∈ sourceIds headers rest) :
    x ∈ sourceIds headers (row :: rest) := by
  cases hn : nonblankId headers row with
  | none => simpa [sourceIds, List.filterMap_cons, hn] using hx
  | some v =>
    simp only [sourceIds, List.filterMap_cons, hn]
    exact List.mem_cons_of_mem v hx

/-- Under the amended hypotheses the effective ids are pairwise distinct. -/
theorem idList_nodup (headers : List String) :
    ∀ rows i, (sourceIds headers rows).Nodup →
      (∀ s ∈ sourceIds headers rows, s.data.take 6 ≠ "sheet_".data) →
      (idList headers i rows).Nodup := by
  intro rows
  induction rows with
  | nil => intro i _ _; exact List.nodup_nil
  | cons row rest ih =>
    intro i h1 h2
    unfold idList
    refine List.nodup_cons.mpr ⟨?_, ?_⟩
    · intro hmem
      rw [effectiveId_eq] at hmem
      cases hn : nonblankId headers row with
      | none =>
        rw [hn] at hmem
        rcases mem_idList headers rest (i + 1) _ hmem with hsrc | ⟨k, hk, _⟩
        · exact h2 _ (sourceIds_tail_subset headers row rest _ hsrc)
            (sheetId_take_six (i + 1))
        · exact absurd (sheetId_inj hk) (by omega)
      | some v =>
        rw [hn] at hmem
        simp only [Option.getD_some] at hmem
        have hsrc0 : sourceIds headers (row :: rest) = v :: sourceIds headers rest := by
          simp [sourceIds, List.filterMap_cons, hn]
        rcases mem_idList headers rest (i + 1) _ hmem with hsrc | ⟨k, hk, _⟩
        · rw [hsrc0] at h1
          exact (List.nodup_cons.mp h1).1 hsrc
        · have := h2 v (by rw [hsrc0]; exact List.mem_cons_self _ _)
          rw [hk] at this
          exact this (sheetId_take_six k)
    · refine ih (i + 1) ?_ ?_
      · cases hn : nonblankId headers row with
        | none =>
          simp only [sourceIds, List.filterMap_cons, hn] at h1
          exact h1
        | some v =>
          simp only [sourceIds, List.filterMap_cons, hn] at h1
          exact (List.nodup_cons.mp h1).2
      · intro s hs
        exact h2 s (sourceIds_tail_subset headers row rest s hs)

/-- C9 counterexample: two source rows carrying the same `Request_ID` value
`R1` decode to two surfaced records with identical requestIds, so the
requestIds of a produced record list are not always pairwise distinct. -/
theorem requestId_duplicate_counterexample :
    ((decodeSheet [["Request_ID", "User_Name", "User_Email", "Meeting_Purpose"],
        ["R1", "Ann", "a@x.com", "Demo"], ["R1", "Bob", "b@x.com", "Demo2"]] "T").map
      (fun m => lookupField m "requestId")) = [some "R1", some "R1"]
    ∧ ¬ ((decodeSheet [["Request_ID", "User_Name", "User_Email", "Meeting_Purpose"],
        ["R1", "Ann", "a@x.com", "Demo"], ["R1", "Bob", "b@x.com", "Demo2"]] "T").map
      (fun m => lookupField m "requestId")).Nodup :=
  ⟨rfl, by decide⟩

/-- C9 as amended: a blank requestId is synthesized as `sheet_<rowIndex+1>`
during row decoding, and the requestIds of the decoded list are pairwise
distinct provided the non-blank source-provided ids are themselves pairwise
distinct and none of them starts with the six characters `sheet_`; the
decoder itself performs no deduplication of source-provided ids. -/
theorem requestId_uniqueness (headers : List String) (dataRows : List (List String))
    (now : String) (h1 : (sourceIds headers dataRows).Nodup)
    (h2 : ∀ s ∈ sourceIds headers dataRows, s.data.take 6 ≠ "sheet_".data) :
    ((decodeSheet (headers :: dataRows) now).map (fun m => lookupField m "requestId")).Nodup
    ∧ ∀ row i, lookupField (applyDefaults (decodeRow headers row) i now) "requestId" =
        some (jsOr (lookupField (decodeRow headers row) "requestId") (sheetId (i + 1))) := by
  constructor
  · have hsub : (decodeSheet (headers :: dataRows) now).Sublist
        (decodeAll headers now 0 dataRows) := List.filter_sublist _
    have hmap := hsub.map (fun m => lookupField m "requestId")
    rw [decodeAll_requestIds headers now 0 dataRows] at hmap
    exact List.Sublist.nodup hmap
      (List.Nodup.map (Option.some_injective String) (idList_nodup headers dataRows 0 h1 h2))
  · intro row i
    exact (applyDefaults_lookups (decodeRow headers row) i now).1

/-- Witness for C9: a sheet with one source id `R1` and one blank id, whose
decoded requestIds `R1` and `sheet_2` are distinct. -/
theorem requestId_uniqueness_witness :
    ((decodeSheet [["Request_ID", "User_Name", "User_Email", "Meeting_Purpose"],
        ["R1", "Ann", "a@x.com", "Demo"], ["", "Bob", "b@x.com", "Demo2"]] "T").map
      (fun m => lookupField m "requestId")).Nodup :=
  (requestId_uniqueness ["Request_ID", "User_Name", "User_Email", "Meeting_Purpose"]
    [["R1", "Ann", "a@x.com", "Demo"], ["", "Bob", "b@x.com", "Demo2"]] "T"
    (by decide) (by decide)).1

end MeetingOrganizer
